import Mathlib

/-!
Verification development for the digitalmarketplace-deployment repository.

The repository is a thin deployment orchestrator over boto (AWS SDK):
`digitalmarketplace/deploy/aws.py` holds the orchestrator (`Client`,
`S3Client`, `BeanstalkClient`) and `digitalmarketplace/deploy/cli.py` the
command surface.  Every meaningful operation is a call to an external
collaborator (git packaging, S3, Beanstalk), so the embedding models a run
as a trace of collaborator calls together with a Python-style
success-or-exception result.  The responses of the external collaborators are an
oracle (`World`); the decision logic of the orchestrator (environment-name
derivation via SHA-1, create-or-update reconciliation, exception
swallowing) is translated directly from the source.
-/

namespace Deploy

/-- Errors raised by the boto library at a connection call: the boto
`S3CreateError` class (carrying the S3 error code, raised by bucket creation)
and the generic boto server error for everything else.  The repo-local
class `aws.SomeException` is not here: the external SDK cannot raise a
class private to this repository. -/
inductive BotoErr where
  | s3CreateError (code : String)
  | serverError (code : String)
  deriving DecidableEq, Repr

/-- Python exceptions visible to the orchestrator: the repo-level
`SomeException` (defined in aws.py, raised by no code path), a boto
error from a connection call, or an `AttributeError` from a failed
module attribute lookup. -/
inductive PyErr where
  | someException
  | boto (e : BotoErr)
  | attributeError (name : String)
  deriving DecidableEq, Repr

/-- Equality of Python results is decidable, so concrete runs can be
checked by evaluation. -/
instance {ε α : Type} [DecidableEq ε] [DecidableEq α] : DecidableEq (Except ε α) :=
  fun a b =>
    match a, b with
    | .ok x, .ok y =>
        if h : x = y then isTrue (by rw [h]) else isFalse (fun he => h (Except.ok.inj he))
    | .error x, .error y =>
        if h : x = y then isTrue (by rw [h]) else isFalse (fun he => h (Except.error.inj he))
    | .ok _, .error _ => isFalse (fun he => Except.noConfusion he)
    | .error _, .ok _ => isFalse (fun he => Except.noConfusion he)

/-- One call to an external collaborator, recorded in order.  `conn*`
events are boto connection calls; `gitCreatePackage` is the packaging
provider. -/
inductive Event where
  | connCreateBucket (name location : String)
  | connCreateApplication (name : String)
  | gitCreatePackage
  | connUpload (bucket key : String)
  | connCreateApplicationVersion (app label bucket key descr : String)
  | connCreateEnvironment (app env label stack : String)
  | connUpdateEnvironment (env label : String)
  | connTerminateEnvironment (env : String)
  deriving DecidableEq, Repr

/-- A Python computation: the trace of collaborator calls it performed,
and either a return value or the exception that aborted it. -/
abbrev PyM (α : Type) := List Event × Except PyErr α

/-- Return a value, performing no external call. -/
def PyM.pure (a : α) : PyM α := ([], .ok a)

/-- Sequencing: on success continue (concatenating traces); an exception
aborts the rest of the computation but keeps the calls already made. -/
def PyM.bind (x : PyM α) (f : α → PyM β) : PyM β :=
  match x.2 with
  | .ok a => (x.1 ++ (f a).1, (f a).2)
  | .error e => (x.1, .error e)

/-- Perform one collaborator call: record the event; a boto error becomes
a raised Python exception. -/
def PyM.step (ev : Event) (r : Except BotoErr Unit) : PyM Unit :=
  ([ev], match r with | .ok _ => .ok () | .error e => .error (.boto e))

/-- Python `try: x except SomeException: fallback` — the handler fires
exactly on the repo-local `SomeException` class. -/
def PyM.catchSomeException (x fallback : PyM Unit) : PyM Unit :=
  match x.2 with
  | .error .someException => (x.1 ++ fallback.1, fallback.2)
  | _ => x

/-- Python `try: x except S3CreateError as e: if code != "BucketAlreadyOwnedByYou": raise`
— only the boto `S3CreateError` class is caught, and only the
already-owned code is swallowed. -/
def PyM.catchS3AlreadyOwned (x : PyM Unit) : PyM Unit :=
  match x.2 with
  | .error (.boto (.s3CreateError code)) =>
      if code = "BucketAlreadyOwnedByYou" then (x.1, .ok ()) else x
  | _ => x

/-- Responses of the external collaborators: the packaging provider
outputs and the result of each boto connection call. -/
structure World where
  applicationName : String
  packageSha : String
  packagePath : String
  connCreateBucket : String → String → Except BotoErr Unit
  connCreateApplication : String → Except BotoErr Unit
  connCreateEnvironment : String → String → String → String → Except BotoErr Unit
  connUpdateEnvironment : String → String → Except BotoErr Unit
  connTerminateEnvironment : String → Except BotoErr Unit
  connCreateApplicationVersion : String → String → String → String → String → Except BotoErr Unit
  connUpload : String → String → Except BotoErr Unit

/-- Characters after the last slash: the accumulator is the current
component reversed, reset whenever a slash is read. -/
def basenameAux : List Char → List Char → List Char
  | cur, [] => cur.reverse
  | cur, c :: rest => if c = '/' then basenameAux [] rest else basenameAux (c :: cur) rest

/-- Python `os.path.basename`: the part after the last slash. -/
def basename (p : String) : String := String.mk (basenameAux [] p.data)

/-! SHA-1, as used by `hashlib.sha1(...).hexdigest()` in
`BeanstalkClient._environment_name`.  Implemented over `Nat` with
explicit reduction modulo `2 ^ 32`. -/

/-- UTF-8 encoding of one character, as a list of byte values. -/
def utf8Bytes (c : Char) : List Nat :=
  let n := c.toNat
  if n < 128 then [n]
  else if n < 2048 then [192 + n / 64, 128 + n % 64]
  else if n < 65536 then [224 + n / 4096, 128 + (n / 64) % 64, 128 + n % 64]
  else [240 + n / 262144, 128 + (n / 4096) % 64, 128 + (n / 64) % 64, 128 + n % 64]

/-- The byte sequence of a string. -/
def strBytes (s : String) : List Nat := (s.data.map utf8Bytes).flatten

/-- Rotate a 32-bit word left by `k` (for `0 < k < 32` and `n < 2 ^ 32`). -/
def rotl32 (k n : Nat) : Nat := ((n <<< k) % 4294967296) ||| (n >>> (32 - k))

/-- The `k` most significant bytes of `n`, big-endian. -/
def beBytes : Nat → Nat → List Nat
  | 0, _ => []
  | k + 1, n => ((n >>> (8 * k)) % 256) :: beBytes k n

/-- SHA-1 padding: append `0x80`, zero bytes up to 56 mod 64, then the
original bit length as 8 big-endian bytes. -/
def sha1Pad (msg : List Nat) : List Nat :=
  msg ++ 128 :: (List.replicate ((119 - msg.length % 64) % 64) 0 ++ beBytes 8 (msg.length * 8))

/-- Group bytes into big-endian 32-bit words. -/
def wordsOf : List Nat → List Nat
  | b0 :: b1 :: b2 :: b3 :: rest =>
      (b0 * 16777216 + b1 * 65536 + b2 * 256 + b3) :: wordsOf rest
  | _ => []

/-- Extend a message schedule by `n` further words, each the rotation by
one of the xor of the words 3, 8, 14 and 16 places back. -/
def extendSchedule : List Nat → Nat → List Nat
  | w, 0 => w
  | w, n + 1 =>
      extendSchedule
        (w ++ [rotl32 1 ((((w.getD (w.length - 3) 0) ^^^ (w.getD (w.length - 8) 0)) ^^^
          (w.getD (w.length - 14) 0)) ^^^ (w.getD (w.length - 16) 0))]) n

/-- The SHA-1 round function for round `t`. -/
def sha1F (t b c d : Nat) : Nat :=
  if t < 20 then (b &&& c) ||| ((b ^^^ 4294967295) &&& d)
  else if t < 40 then (b ^^^ c) ^^^ d
  else if t < 60 then ((b &&& c) ||| (b &&& d)) ||| (c &&& d)
  else (b ^^^ c) ^^^ d

/-- The SHA-1 round constant for round `t`. -/
def sha1K (t : Nat) : Nat :=
  if t < 20 then 1518500249 else if t < 40 then 1859775393
  else if t < 60 then 2400959708 else 3395469782

/-- One SHA-1 round on the five-word state. -/
def sha1Round (w : List Nat) (st : Nat × Nat × Nat × Nat × Nat) (t : Nat) :
    Nat × Nat × Nat × Nat × Nat :=
  let (a, b, c, d, e) := st
  ((rotl32 5 a + sha1F t b c d + e + sha1K t + w.getD t 0) % 4294967296,
   a, rotl32 30 b, c, d)

/-- Process one 64-byte chunk: 80 rounds, then add into the running hash. -/
def processChunk (h : Nat × Nat × Nat × Nat × Nat) (chunk : List Nat) :
    Nat × Nat × Nat × Nat × Nat :=
  let w := extendSchedule (wordsOf chunk) 64
  let r := (List.range 80).foldl (sha1Round w) h
  ((h.1 + r.1) % 4294967296, (h.2.1 + r.2.1) % 4294967296,
   (h.2.2.1 + r.2.2.1) % 4294967296, (h.2.2.2.1 + r.2.2.2.1) % 4294967296,
   (h.2.2.2.2 + r.2.2.2.2) % 4294967296)

/-- Split a byte list into chunks of 64 (structural recursion on a fuel
bound so the kernel can evaluate it; `fuel = l.length` always suffices
because each step drops at least one element of a nonempty list). -/
def chunksOf64Go : Nat → List Nat → List (List Nat)
  | 0, _ => []
  | _, [] => []
  | fuel + 1, l@(_ :: _) => l.take 64 :: chunksOf64Go fuel (l.drop 64)

/-- Split a byte list into chunks of 64. -/
def chunksOf64 (l : List Nat) : List (List Nat) := chunksOf64Go l.length l

/-- Lower-case hex character for a value below 16. -/
def hexChar (n : Nat) : Char := Char.ofNat (if n < 10 then 48 + n else 87 + n)

/-- Two hex characters for a byte value. -/
def byteToHex (n : Nat) : List Char := [hexChar (n / 16), hexChar (n % 16)]

/-- `hashlib.sha1(s).hexdigest()`: the 40-character lower-case hex digest. -/
def sha1Hex (s : String) : String :=
  let h := (chunksOf64 (sha1Pad (strBytes s))).foldl processChunk
    (1732584193, 4023233417, 2562383102, 271733878, 3285377520)
  String.mk ((([h.1, h.2.1, h.2.2.1, h.2.2.2.1, h.2.2.2.2].map (beBytes 4)).flatten.map byteToHex).flatten)

/-! Embedding of `digitalmarketplace/deploy/aws.py`. -/

/-- aws.py: module-level default solution stack, injected into every
environment creation (the `Client` constructor passes no options, so
`solution_stack_name` always resolves to this default). -/
def DEFAULT_SOLUTION_STACK : String :=
  "64bit Amazon Linux 2014.03 v1.0.9 running Python 2.7"

/-- Python `str.startswith`: character-prefix test (structural, so the
kernel can evaluate it). -/
def startswith (s pre : String) : Bool := pre.data.isPrefixOf s.data

/-- The location conditional of `S3Client.create_bucket`: `EU` when the
region starts with `eu`, the empty string otherwise. -/
def bucketLocation (region : String) : String :=
  if startswith region "eu" then "EU" else ""

namespace S3Client

/-- `S3Client.create_bucket`: call the connection with the computed
location; catch `S3CreateError` and re-raise unless the error code is
`BucketAlreadyOwnedByYou`. -/
def create_bucket (w : World) (region application_name : String) : PyM Unit :=
  PyM.catchS3AlreadyOwned
    (PyM.step (.connCreateBucket application_name (bucketLocation region))
      (w.connCreateBucket application_name (bucketLocation region)))

/-- `S3Client.upload_package`: upload under the key
`os.path.basename(package_path)` and return `(application_name, key)`. -/
def upload_package (w : World) (application_name package_path : String) :
    PyM (String × String) :=
  PyM.bind
    (PyM.step (.connUpload application_name (basename package_path))
      (w.connUpload application_name (basename package_path)))
    (fun _ => PyM.pure (application_name, basename package_path))

end S3Client

namespace BeanstalkClient

/-- `BeanstalkClient._environment_name`: the first five characters of the
hex SHA-1 digest of the application name, a hyphen, then the logical
environment name. -/
def _environment_name (application_name environment_name : String) : String :=
  (sha1Hex application_name).take 5 ++ "-" ++ environment_name

/-- `BeanstalkClient.create_application`: a single connection call. -/
def create_application (w : World) (application_name : String) : PyM Unit :=
  PyM.step (.connCreateApplication application_name)
    (w.connCreateApplication application_name)

/-- `BeanstalkClient.create_environment`: resolve the encoded environment
name, then call the connection with the default solution stack. -/
def create_environment (w : World)
    (application_name environment_name version_label : String) : PyM Unit :=
  PyM.step
    (.connCreateEnvironment application_name
      (_environment_name application_name environment_name) version_label
      DEFAULT_SOLUTION_STACK)
    (w.connCreateEnvironment application_name
      (_environment_name application_name environment_name) version_label
      DEFAULT_SOLUTION_STACK)

/-- `BeanstalkClient.update_environment`: resolve the encoded environment
name, then call the connection. -/
def update_environment (w : World)
    (application_name environment_name version_label : String) : PyM Unit :=
  PyM.step
    (.connUpdateEnvironment
      (_environment_name application_name environment_name) version_label)
    (w.connUpdateEnvironment
      (_environment_name application_name environment_name) version_label)

/-- `BeanstalkClient.create_or_update_environment`: try create; the
`except` clause names the repo-local class `SomeException`, so only that
class triggers the update fallback. -/
def create_or_update_environment (w : World)
    (application_name environment_name version_label : String) : PyM Unit :=
  PyM.catchSomeException
    (create_environment w application_name environment_name version_label)
    (update_environment w application_name environment_name version_label)

/-- `BeanstalkClient.terminate_environment`: resolve the encoded name and
call the connection. -/
def terminate_environment (w : World)
    (application_name environment_name : String) : PyM Unit :=
  PyM.step
    (.connTerminateEnvironment (_environment_name application_name environment_name))
    (w.connTerminateEnvironment (_environment_name application_name environment_name))

/-- `BeanstalkClient.create_application_version`: a single connection call. -/
def create_application_version (w : World)
    (application_name version_label s3_bucket s3_key description : String) : PyM Unit :=
  PyM.step
    (.connCreateApplicationVersion application_name version_label s3_bucket s3_key description)
    (w.connCreateApplicationVersion application_name version_label s3_bucket s3_key description)

end BeanstalkClient

namespace Client

/-- `Client.create_version`: package the tree (`git.create_package`
returns the content sha and a path), upload, optionally suffix the label
with the sha, register the version, and return the final label. -/
def create_version (w : World) (version_label : String) (with_sha : Bool)
    (description : String) : PyM String :=
  PyM.bind (([Event.gitCreatePackage], .ok (w.packageSha, w.packagePath)) : PyM (String × String))
    (fun sp =>
      PyM.bind (S3Client.upload_package w w.applicationName sp.2)
        (fun bk =>
          let label := if with_sha then version_label ++ "-" ++ sp.1 else version_label
          PyM.bind
            (BeanstalkClient.create_application_version w w.applicationName label bk.1 bk.2 description)
            (fun _ => PyM.pure label)))

/-- `Client.bootstrap`: create the bucket, the application, the
`initial` version, then the `staging` and `production` environments (the
`for` loop unrolled in source order). -/
def bootstrap (w : World) (region : String) : PyM Unit :=
  PyM.bind (S3Client.create_bucket w region w.applicationName) (fun _ =>
    PyM.bind (BeanstalkClient.create_application w w.applicationName) (fun _ =>
      PyM.bind (create_version w "initial" false "Initial code version for bootstrap")
        (fun version_label =>
          PyM.bind (BeanstalkClient.create_environment w w.applicationName "staging" version_label)
            (fun _ =>
              BeanstalkClient.create_environment w w.applicationName "production" version_label))))

/-- `Client.deploy_to_branch_environment`: environment name `dev-<branch>`,
version created with that base label and `with_sha=True`, then
create-or-update reconciliation. -/
def deploy_to_branch_environment (w : World) (branch : String) : PyM Unit :=
  PyM.bind (create_version w ("dev-" ++ branch) true "")
    (fun version_label =>
      BeanstalkClient.create_or_update_environment w w.applicationName
        ("dev-" ++ branch) version_label)

/-- `Client.terminate_branch_environment`. -/
def terminate_branch_environment (w : World) (branch : String) : PyM Unit :=
  BeanstalkClient.terminate_environment w w.applicationName ("dev-" ++ branch)

/-- `Client.deploy`: promotion-only update of an environment. -/
def deploy (w : World) (version_label environment_name : String) : PyM Unit :=
  BeanstalkClient.update_environment w w.applicationName environment_name version_label

end Client

/-! Embedding of `digitalmarketplace/deploy/cli.py`.  Every handler body
begins by evaluating `aws.get_client(region)`, and the `except` clause
of the dispatcher evaluates `aws.AWSError`; both are attribute lookups on
the `aws` module, so the top-level name table of the module is part of the
model. -/

/-- The names bound at the top level of the `aws` module: the imports
(`os`, `hashlib`, `beanstalk`, `s3`, `Key`, `S3CreateError`, `git`) and
the definitions of the module itself.  Neither `get_client` nor `AWSError` is
among them. -/
def awsModuleNames : List String :=
  ["os", "hashlib", "beanstalk", "s3", "Key", "S3CreateError", "git",
   "Client", "S3Client", "SomeException", "DEFAULT_SOLUTION_STACK",
   "BeanstalkClient"]

/-- Python attribute lookup on the `aws` module: `AttributeError` when
the name is not bound at module level. -/
def awsGetattr (name : String) : Except PyErr Unit :=
  if name ∈ awsModuleNames then .ok () else .error (.attributeError name)

namespace cli

/-- Modelled from the spec: `aws.get_client(region)` is referenced by
every CLI handler but `get_client` is missing from the `aws` module, so
this is what the command table of the spec assumes it does — return the
orchestrator client for the region; `cli.create_version` then calls
`create_version(version_label)` on it (so `with_sha` and `description`
keep their defaults `False` and the empty string), discards the result
and returns `None` (the handler body has no `return` statement). -/
def create_version_modelled (w : World) (version_label : String) :
    PyM (Option String) :=
  PyM.bind (Client.create_version w version_label false "")
    (fun _ => PyM.pure none)

/-- `cli.create_version`: evaluate `aws.get_client` (an attribute lookup
on the `aws` module) and, were it bound, proceed as the spec assumes. -/
def create_version (w : World) (version_label : String) : PyM (Option String) :=
  match awsGetattr "get_client" with
  | .error e => ([], .error e)
  | .ok _ => create_version_modelled w version_label

/-- `cli.bootstrap`, with the same missing-`get_client` lookup first. -/
def bootstrap (w : World) (region : String) : PyM (Option String) :=
  match awsGetattr "get_client" with
  | .error e => ([], .error e)
  | .ok _ => PyM.bind (Client.bootstrap w region) (fun _ => PyM.pure none)

/-- `cli.deploy_to_branch_environment` (branch already resolved). -/
def deploy_to_branch_environment (w : World) (branch : String) : PyM (Option String) :=
  match awsGetattr "get_client" with
  | .error e => ([], .error e)
  | .ok _ => PyM.bind (Client.deploy_to_branch_environment w branch) (fun _ => PyM.pure none)

/-- `cli.terminate_branch_environment` (branch already resolved). -/
def terminate_branch_environment (w : World) (branch : String) : PyM (Option String) :=
  match awsGetattr "get_client" with
  | .error e => ([], .error e)
  | .ok _ => PyM.bind (Client.terminate_branch_environment w branch) (fun _ => PyM.pure none)

/-- `cli.deploy_to_staging`. -/
def deploy_to_staging (w : World) (version_label : String) : PyM (Option String) :=
  match awsGetattr "get_client" with
  | .error e => ([], .error e)
  | .ok _ => PyM.bind (Client.deploy w version_label "staging") (fun _ => PyM.pure none)

/-- `cli.deploy_to_production`. -/
def deploy_to_production (w : World) (version_label : String) : PyM (Option String) :=
  match awsGetattr "get_client" with
  | .error e => ([], .error e)
  | .ok _ => PyM.bind (Client.deploy w version_label "production") (fun _ => PyM.pure none)

/-- The parser default of `cli.main` for `--region`. -/
def DEFAULT_REGION : String := "eu-west-1"

end cli

/-! Concrete worlds used to evaluate the model on specific runs. -/

/-- A world where every collaborator call succeeds: application
`demo-app`, content hash `abc123`, package path `pkg.zip`. -/
def okWorld : World where
  applicationName := "demo-app"
  packageSha := "abc123"
  packagePath := "pkg.zip"
  connCreateBucket := fun _ _ => .ok ()
  connCreateApplication := fun _ => .ok ()
  connCreateEnvironment := fun _ _ _ _ => .ok ()
  connUpdateEnvironment := fun _ _ => .ok ()
  connTerminateEnvironment := fun _ => .ok ()
  connCreateApplicationVersion := fun _ _ _ _ _ => .ok ()
  connUpload := fun _ _ => .ok ()

/-- A world where environment creation always fails with the provider
already-exists error (a boto server error, as the external SDK raises). -/
def alreadyExistsWorld : World :=
  { okWorld with
    connCreateEnvironment := fun _ _ _ _ =>
      .error (.serverError "EnvironmentAlreadyExists") }

/-- A world where environment creation fails with an unrelated provider
error. -/
def otherErrWorld : World :=
  { okWorld with
    connCreateEnvironment := fun _ _ _ _ =>
      .error (.serverError "InsufficientPrivileges") }

/-- A world where only the `production` environment creation fails. -/
def prodFailWorld : World :=
  { okWorld with
    connCreateEnvironment := fun _ env _ _ =>
      if env = BeanstalkClient._environment_name "demo-app" "production" then
        .error (.serverError "OperationInProgress")
      else .ok () }

/-- A world whose bucket creation fails with the already-owned code for
the bucket named `owned` and with `AccessDenied` for any other bucket. -/
def bucketOwnedWorld : World :=
  { okWorld with
    connCreateBucket := fun name _ =>
      if name = "owned" then .error (.s3CreateError "BucketAlreadyOwnedByYou")
      else .error (.s3CreateError "AccessDenied") }

/-! Claims. -/

/-- Claim C1 (code bug exhibit): when the provider create-environment
call fails with the already-exists error, `create_or_update_environment`
does NOT fall back to update — the `except` clause names the repo-local
class `SomeException`, which the external provider never raises, so the
error propagates and the trace holds the single create call and no
update call. -/
theorem create_or_update_already_exists_never_updates :
    BeanstalkClient.create_or_update_environment alreadyExistsWorld
      "demo-app" "dev-feature-x" "v1" =
      ([.connCreateEnvironment "demo-app"
          (BeanstalkClient._environment_name "demo-app" "dev-feature-x")
          "v1" DEFAULT_SOLUTION_STACK],
       .error (.boto (.serverError "EnvironmentAlreadyExists"))) := rfl

/-- Claim C2: a creation failure inside `create_or_update_environment`
whose error is not the already-exists kind propagates unchanged to the
caller, and the trace holds only the create call — update-environment is
never called. -/
theorem create_or_update_other_error_propagates (w : World)
    (application_name environment_name version_label : String) (be : BotoErr)
    (hc : w.connCreateEnvironment application_name
      (BeanstalkClient._environment_name application_name environment_name)
      version_label DEFAULT_SOLUTION_STACK = .error be)
    (_hne : be ≠ .serverError "EnvironmentAlreadyExists") :
    BeanstalkClient.create_or_update_environment w
      application_name environment_name version_label =
      ([.connCreateEnvironment application_name
          (BeanstalkClient._environment_name application_name environment_name)
          version_label DEFAULT_SOLUTION_STACK],
       .error (.boto be)) := by
  simp [BeanstalkClient.create_or_update_environment,
    BeanstalkClient.create_environment, PyM.catchSomeException, PyM.step, hc]

/-- Witness for claim C2 at a concrete world: creation fails with
`InsufficientPrivileges`, which is not the already-exists error, and the
run propagates it with no update call. -/
theorem create_or_update_other_error_propagates_witness :
    otherErrWorld.connCreateEnvironment "demo-app"
      (BeanstalkClient._environment_name "demo-app" "dev-x") "v1"
      DEFAULT_SOLUTION_STACK = .error (.serverError "InsufficientPrivileges") ∧
    (BotoErr.serverError "InsufficientPrivileges" ≠
      .serverError "EnvironmentAlreadyExists") ∧
    BeanstalkClient.create_or_update_environment otherErrWorld
      "demo-app" "dev-x" "v1" =
      ([.connCreateEnvironment "demo-app"
          (BeanstalkClient._environment_name "demo-app" "dev-x")
          "v1" DEFAULT_SOLUTION_STACK],
       .error (.boto (.serverError "InsufficientPrivileges"))) :=
  ⟨rfl, by decide,
   create_or_update_other_error_propagates otherErrWorld "demo-app" "dev-x" "v1"
     (.serverError "InsufficientPrivileges") rfl (by decide)⟩

set_option maxRecDepth 100000 in
/-- Claim C3: the resolved environment identifier is the first five
characters of the hexadecimal SHA-1 digest of the application identity,
a single hyphen, then the environment name; anchored on the regression
scenario sha1("demo-app") = eda3322480e77842a9cc706b7b4145aa05025fbe,
giving identifier `eda33-staging`. -/
theorem environment_identifier_sha1_prefix :
    (∀ application_name environment_name : String,
      BeanstalkClient._environment_name application_name environment_name =
        (sha1Hex application_name).take 5 ++ "-" ++ environment_name) ∧
    sha1Hex "demo-app" = "eda3322480e77842a9cc706b7b4145aa05025fbe" ∧
    BeanstalkClient._environment_name "demo-app" "staging" = "eda33-staging" :=
  ⟨fun _ _ => rfl, by decide, by decide⟩

/-- Claim C4: `create_version` with the source-hash suffix registers and
returns `<base>-<hash>` where `<hash>` is the content hash the packaging provider
reported for this call, and without the suffix registers and returns
exactly `<base>`; in both runs the label in the registration call equals
the returned label. -/
theorem create_version_label_registration (w : World) (base description : String)
    (hupload : w.connUpload w.applicationName (basename w.packagePath) = .ok ())
    (hregS : w.connCreateApplicationVersion w.applicationName
      (base ++ "-" ++ w.packageSha) w.applicationName
      (basename w.packagePath) description = .ok ())
    (hregB : w.connCreateApplicationVersion w.applicationName base
      w.applicationName (basename w.packagePath) description = .ok ()) :
    Client.create_version w base true description =
      ([.gitCreatePackage,
        .connUpload w.applicationName (basename w.packagePath),
        .connCreateApplicationVersion w.applicationName
          (base ++ "-" ++ w.packageSha) w.applicationName
          (basename w.packagePath) description],
       .ok (base ++ "-" ++ w.packageSha)) ∧
    Client.create_version w base false description =
      ([.gitCreatePackage,
        .connUpload w.applicationName (basename w.packagePath),
        .connCreateApplicationVersion w.applicationName base
          w.applicationName (basename w.packagePath) description],
       .ok base) := by
  constructor <;>
    simp [Client.create_version, S3Client.upload_package,
      BeanstalkClient.create_application_version, PyM.bind, PyM.step, PyM.pure,
      hupload, hregS, hregB]

/-- Witness for claim C4 at the all-success world: base `v1`, content
hash `abc123`; the suffixed run registers and returns `v1-abc123`, the
plain run registers and returns `v1`. -/
theorem create_version_label_registration_witness :
    okWorld.connUpload "demo-app" "pkg.zip" = .ok () ∧
    Client.create_version okWorld "v1" true "d" =
      ([.gitCreatePackage, .connUpload "demo-app" "pkg.zip",
        .connCreateApplicationVersion "demo-app" "v1-abc123" "demo-app" "pkg.zip" "d"],
       .ok "v1-abc123") ∧
    Client.create_version okWorld "v1" false "d" =
      ([.gitCreatePackage, .connUpload "demo-app" "pkg.zip",
        .connCreateApplicationVersion "demo-app" "v1" "demo-app" "pkg.zip" "d"],
       .ok "v1") :=
  ⟨rfl,
   ((create_version_label_registration okWorld "v1" "d" rfl rfl rfl).1.trans (by decide)),
   ((create_version_label_registration okWorld "v1" "d" rfl rfl rfl).2.trans (by decide))⟩

/-- Claim C5: whenever the steps before the production environment
succeed, bootstrap performs exactly, in order: bucket creation,
application creation, the `initial` version (packaging, upload,
registration under label `initial`), the `staging` environment, then the
`production` environment — whatever the outcome of the production call, the
trace is the same, so a production failure neither re-invokes the
staging creation nor rolls back or retries any earlier step. -/
theorem bootstrap_sequencing (w : World) (region : String)
    (hbucket : w.connCreateBucket w.applicationName (bucketLocation region) = .ok ())
    (happ : w.connCreateApplication w.applicationName = .ok ())
    (hupload : w.connUpload w.applicationName (basename w.packagePath) = .ok ())
    (hreg : w.connCreateApplicationVersion w.applicationName "initial"
      w.applicationName (basename w.packagePath)
      "Initial code version for bootstrap" = .ok ())
    (hstaging : w.connCreateEnvironment w.applicationName
      (BeanstalkClient._environment_name w.applicationName "staging") "initial"
      DEFAULT_SOLUTION_STACK = .ok ()) :
    Client.bootstrap w region =
      ([.connCreateBucket w.applicationName (bucketLocation region),
        .connCreateApplication w.applicationName,
        .gitCreatePackage,
        .connUpload w.applicationName (basename w.packagePath),
        .connCreateApplicationVersion w.applicationName "initial"
          w.applicationName (basename w.packagePath)
          "Initial code version for bootstrap",
        .connCreateEnvironment w.applicationName
          (BeanstalkClient._environment_name w.applicationName "staging")
          "initial" DEFAULT_SOLUTION_STACK,
        .connCreateEnvironment w.applicationName
          (BeanstalkClient._environment_name w.applicationName "production")
          "initial" DEFAULT_SOLUTION_STACK],
       match w.connCreateEnvironment w.applicationName
          (BeanstalkClient._environment_name w.applicationName "production")
          "initial" DEFAULT_SOLUTION_STACK with
       | .ok _ => .ok ()
       | .error e => .error (.boto e)) := by
  cases hprod : w.connCreateEnvironment w.applicationName
      (BeanstalkClient._environment_name w.applicationName "production")
      "initial" DEFAULT_SOLUTION_STACK <;>
    simp [Client.bootstrap, S3Client.create_bucket, PyM.catchS3AlreadyOwned,
      BeanstalkClient.create_application, Client.create_version,
      S3Client.upload_package, BeanstalkClient.create_application_version,
      BeanstalkClient.create_environment, PyM.bind, PyM.step, PyM.pure,
      hbucket, happ, hupload, hreg, hstaging, hprod]

set_option maxRecDepth 1000000 in
/-- Witness for claim C5 at a world where only the production
environment creation fails: every earlier hypothesis holds, and the run
performs each earlier step exactly once, ends at the failed production
call, and propagates its error. -/
theorem bootstrap_sequencing_witness :
    prodFailWorld.connCreateBucket "demo-app" (bucketLocation "eu-west-1") = .ok () ∧
    prodFailWorld.connCreateApplication "demo-app" = .ok () ∧
    prodFailWorld.connUpload "demo-app" "pkg.zip" = .ok () ∧
    prodFailWorld.connCreateApplicationVersion "demo-app" "initial" "demo-app"
      "pkg.zip" "Initial code version for bootstrap" = .ok () ∧
    prodFailWorld.connCreateEnvironment "demo-app"
      (BeanstalkClient._environment_name "demo-app" "staging") "initial"
      DEFAULT_SOLUTION_STACK = .ok () ∧
    Client.bootstrap prodFailWorld "eu-west-1" =
      ([.connCreateBucket "demo-app" "EU",
        .connCreateApplication "demo-app",
        .gitCreatePackage,
        .connUpload "demo-app" "pkg.zip",
        .connCreateApplicationVersion "demo-app" "initial" "demo-app" "pkg.zip"
          "Initial code version for bootstrap",
        .connCreateEnvironment "demo-app"
          (BeanstalkClient._environment_name "demo-app" "staging")
          "initial" DEFAULT_SOLUTION_STACK,
        .connCreateEnvironment "demo-app"
          (BeanstalkClient._environment_name "demo-app" "production")
          "initial" DEFAULT_SOLUTION_STACK],
       .error (.boto (.serverError "OperationInProgress"))) :=
  ⟨rfl, rfl, rfl, rfl, by decide,
   (bootstrap_sequencing prodFailWorld "eu-west-1" rfl rfl rfl rfl (by decide)).trans
     (by decide)⟩

/-- Claim C6: a bucket-creation failure (the boto `S3CreateError`, the
class the provider raises for a failed bucket creation, carrying the
error code) is swallowed and `create_bucket` succeeds exactly when the
code is `BucketAlreadyOwnedByYou`; any other code is re-raised. -/
theorem create_bucket_already_owned_iff (w : World)
    (region application_name code : String)
    (h : w.connCreateBucket application_name (bucketLocation region) =
      .error (.s3CreateError code)) :
    S3Client.create_bucket w region application_name =
      ([.connCreateBucket application_name (bucketLocation region)],
       if code = "BucketAlreadyOwnedByYou" then .ok ()
       else .error (.boto (.s3CreateError code))) := by
  by_cases hc : code = "BucketAlreadyOwnedByYou" <;>
    simp [S3Client.create_bucket, PyM.catchS3AlreadyOwned, PyM.step, h, hc]

/-- Witness for claim C6: with the already-owned code the run succeeds;
with `AccessDenied` the same error is re-raised. -/
theorem create_bucket_already_owned_iff_witness :
    bucketOwnedWorld.connCreateBucket "owned" (bucketLocation "eu-west-1") =
      .error (.s3CreateError "BucketAlreadyOwnedByYou") ∧
    bucketOwnedWorld.connCreateBucket "other" (bucketLocation "eu-west-1") =
      .error (.s3CreateError "AccessDenied") ∧
    S3Client.create_bucket bucketOwnedWorld "eu-west-1" "owned" =
      ([.connCreateBucket "owned" "EU"], .ok ()) ∧
    S3Client.create_bucket bucketOwnedWorld "eu-west-1" "other" =
      ([.connCreateBucket "other" "EU"],
       .error (.boto (.s3CreateError "AccessDenied"))) :=
  ⟨rfl, rfl,
   (create_bucket_already_owned_iff bucketOwnedWorld "eu-west-1" "owned"
     "BucketAlreadyOwnedByYou" rfl).trans (by decide),
   (create_bucket_already_owned_iff bucketOwnedWorld "eu-west-1" "other"
     "AccessDenied" rfl).trans (by decide)⟩

/-- Claim C7: `deploy_to_branch_environment` derives the environment
name `dev-<branch>`, creates a version with that base label and the
source-hash suffix forced on (final label `dev-<branch>-<hash>`), and
then invokes create-or-update reconciliation for `dev-<branch>` with
that final label — the run is the version-creation calls followed by the
reconciliation run on exactly those arguments. -/
theorem deploy_branch_reconciliation (w : World) (branch : String)
    (hupload : w.connUpload w.applicationName (basename w.packagePath) = .ok ())
    (hreg : w.connCreateApplicationVersion w.applicationName
      ("dev-" ++ branch ++ "-" ++ w.packageSha) w.applicationName
      (basename w.packagePath) "" = .ok ()) :
    Client.deploy_to_branch_environment w branch =
      ([.gitCreatePackage,
        .connUpload w.applicationName (basename w.packagePath),
        .connCreateApplicationVersion w.applicationName
          ("dev-" ++ branch ++ "-" ++ w.packageSha) w.applicationName
          (basename w.packagePath) ""]
        ++ (BeanstalkClient.create_or_update_environment w w.applicationName
            ("dev-" ++ branch) ("dev-" ++ branch ++ "-" ++ w.packageSha)).1,
       (BeanstalkClient.create_or_update_environment w w.applicationName
          ("dev-" ++ branch) ("dev-" ++ branch ++ "-" ++ w.packageSha)).2) := by
  simp [Client.deploy_to_branch_environment, Client.create_version,
    S3Client.upload_package, BeanstalkClient.create_application_version,
    PyM.bind, PyM.step, PyM.pure, hupload, hreg]

set_option maxRecDepth 1000000 in
/-- Witness for claim C7 at the all-success world with branch
`feature-x`: the version is registered as `dev-feature-x-abc123` and the
reconciliation create call receives environment `dev-feature-x` and that
label. -/
theorem deploy_branch_reconciliation_witness :
    okWorld.connUpload "demo-app" "pkg.zip" = .ok () ∧
    okWorld.connCreateApplicationVersion "demo-app" "dev-feature-x-abc123"
      "demo-app" "pkg.zip" "" = .ok () ∧
    Client.deploy_to_branch_environment okWorld "feature-x" =
      ([.gitCreatePackage,
        .connUpload "demo-app" "pkg.zip",
        .connCreateApplicationVersion "demo-app" "dev-feature-x-abc123"
          "demo-app" "pkg.zip" "",
        .connCreateEnvironment "demo-app"
          (BeanstalkClient._environment_name "demo-app" "dev-feature-x")
          "dev-feature-x-abc123" DEFAULT_SOLUTION_STACK],
       .ok ()) :=
  ⟨rfl, rfl,
   (deploy_branch_reconciliation okWorld "feature-x" rfl rfl).trans (by decide)⟩

set_option maxRecDepth 1000000 in
/-- Counterexample to claim C8: with every collaborator succeeding, the
CLI create-version command (modelled with the spec-assumed
`aws.get_client`) registers the version under the final label `v1` but
evaluates to `none` — the Python handler has no `return` statement, so
the final registered label is neither printed nor returned, while the
claim requires `some "v1"`. -/
theorem cli_create_version_drops_label :
    cli.create_version_modelled okWorld "v1" =
      ([.gitCreatePackage, .connUpload "demo-app" "pkg.zip",
        .connCreateApplicationVersion "demo-app" "v1" "demo-app" "pkg.zip" ""],
       .ok none) ∧
    (Except.ok (some "v1") : Except PyErr (Option String)) ≠ .ok none :=
  ⟨by decide, by decide⟩

/-- Claim C8 as amended: for every invocation of the CLI create-version
command with a version label, when the upload and registration succeed,
the command registers the version under the final label but discards it,
returning `None` — no label is printed or returned to the caller. -/
theorem cli_create_version_returns_none (w : World) (version_label : String)
    (hupload : w.connUpload w.applicationName (basename w.packagePath) = .ok ())
    (hreg : w.connCreateApplicationVersion w.applicationName version_label
      w.applicationName (basename w.packagePath) "" = .ok ()) :
    cli.create_version_modelled w version_label =
      ([.gitCreatePackage,
        .connUpload w.applicationName (basename w.packagePath),
        .connCreateApplicationVersion w.applicationName version_label
          w.applicationName (basename w.packagePath) ""],
       .ok none) := by
  simp [cli.create_version_modelled, Client.create_version,
    S3Client.upload_package, BeanstalkClient.create_application_version,
    PyM.bind, PyM.step, PyM.pure, hupload, hreg]

/-- Witness for the amended claim C8 at the all-success world and label
`v2`. -/
theorem cli_create_version_returns_none_witness :
    okWorld.connUpload "demo-app" "pkg.zip" = .ok () ∧
    okWorld.connCreateApplicationVersion "demo-app" "v2" "demo-app" "pkg.zip" "" = .ok () ∧
    cli.create_version_modelled okWorld "v2" =
      ([.gitCreatePackage, .connUpload "demo-app" "pkg.zip",
        .connCreateApplicationVersion "demo-app" "v2" "demo-app" "pkg.zip" ""],
       .ok none) :=
  ⟨rfl, rfl,
   (cli_create_version_returns_none okWorld "v2" rfl rfl).trans (by decide)⟩

/-- Claim C9: the `aws` module binds neither `get_client` nor `AWSError`,
so every CLI command handler fails with an attribute-lookup error before
any provider operation is performed (empty trace), and the dispatcher
referencing `aws.AWSError` in its `except` clause hits the same
attribute-lookup failure. -/
theorem cli_commands_attribute_error :
    "get_client" ∉ awsModuleNames ∧
    "AWSError" ∉ awsModuleNames ∧
    awsGetattr "AWSError" = .error (.attributeError "AWSError") ∧
    ∀ (w : World) (s : String),
      cli.bootstrap w s = ([], .error (.attributeError "get_client")) ∧
      cli.create_version w s = ([], .error (.attributeError "get_client")) ∧
      cli.deploy_to_branch_environment w s = ([], .error (.attributeError "get_client")) ∧
      cli.terminate_branch_environment w s = ([], .error (.attributeError "get_client")) ∧
      cli.deploy_to_staging w s = ([], .error (.attributeError "get_client")) ∧
      cli.deploy_to_production w s = ([], .error (.attributeError "get_client")) :=
  ⟨by decide, by decide, rfl, fun _ _ => ⟨rfl, rfl, rfl, rfl, rfl, rfl⟩⟩

/-- Claim C10: `create_bucket` always performs exactly one bucket
creation call whose location is `EU` precisely when the region starts
with `eu` and the empty string otherwise; the CLI parser default region
is `eu-west-1`, which starts with `eu`, so a default invocation requests
the `EU` location. -/
theorem create_bucket_eu_location (w : World) (region application_name : String) :
    (S3Client.create_bucket w region application_name).1 =
      [.connCreateBucket application_name (bucketLocation region)] ∧
    (bucketLocation region = "EU" ↔ startswith region "eu" = true) ∧
    (bucketLocation region = "" ↔ startswith region "eu" = false) ∧
    cli.DEFAULT_REGION = "eu-west-1" ∧
    bucketLocation cli.DEFAULT_REGION = "EU" := by
  refine ⟨?_, ?_, ?_, rfl, by decide⟩
  · cases hr : w.connCreateBucket application_name (bucketLocation region) with
    | ok u =>
        simp [S3Client.create_bucket, PyM.catchS3AlreadyOwned, PyM.step, hr]
    | error e =>
        cases e with
        | s3CreateError code =>
            by_cases hc : code = "BucketAlreadyOwnedByYou" <;>
              simp [S3Client.create_bucket, PyM.catchS3AlreadyOwned, PyM.step,
                hr, hc]
        | serverError code =>
            simp [S3Client.create_bucket, PyM.catchS3AlreadyOwned, PyM.step, hr]
  · by_cases h : startswith region "eu" = true <;> simp [bucketLocation, h]
  · by_cases h : startswith region "eu" = true <;> simp [bucketLocation, h]

end Deploy

